/-
Verification of the Group-Chat server (server.js, setup-database.js).

The embedding models:
  - the effective MySQL schema created by setup-database.js: table
    messages (id INT AUTO_INCREMENT PRIMARY KEY, group_id, sender_name,
    message, is_anonymous, created_at) with NO foreign-key constraint
    (the FOREIGN KEY declared in server.js createTables references a
    table named user_groups that no script ever creates, so that CREATE
    TABLE fails and the setup-database.js schema is the one in effect),
    and table groups (id, name);
  - the two ingress handlers of server.js:
    POST /api/groups/:id/messages (lines 131-159) and the socket event
    send_message (lines 175-196), each transcribed separately;
  - GET /api/groups/:id/messages (lines 115-129), which runs
    SELECT * FROM messages WHERE group_id = ? ORDER BY created_at ASC;
  - the Socket.IO room state driven by join_group / leave_group /
    disconnect (lines 165-200): rooms are sets of (socketId, room)
    pairs; socket.join inserts, socket.leave erases, and on disconnect
    Socket.IO removes the socket from every room (documented library
    behavior; the repo handler at lines 198-200 only logs).

Each db.execute call can reject (store unreachable); the Bool flags
insertOk / selectOk model the outcome of the INSERT and the follow-up
SELECT.  CURRENT_TIMESTAMP is an external input, passed as `now`.
JavaScript truthiness of `x || d` is embedded by jsOr / jsOrB: the
empty string and false are falsy.
-/
import Mathlib

/-- One row of the messages table, columns as in setup-database.js. -/
structure MessageRow where
  id : Nat
  group_id : Nat
  sender_name : String
  message : String
  is_anonymous : Bool
  created_at : Nat
deriving DecidableEq

/-- Database state: the groups table (id, name), the messages table in
commit order, and the next AUTO_INCREMENT value of messages.id. -/
structure DbState where
  groups : List (Nat × String)
  messages : List MessageRow
  nextMessageId : Nat
deriving DecidableEq

/-- JavaScript `x || dflt` for an optional string: undefined and the
empty string are falsy. -/
def jsOr (x : Option String) (dflt : String) : String :=
  match x with
  | none => dflt
  | some s => if s = "" then dflt else s

/-- JavaScript `x || dflt` for an optional boolean: undefined and false
are falsy.  In particular jsOrB (some false) true = true. -/
def jsOrB (x : Option Bool) (dflt : Bool) : Bool :=
  match x with
  | none => dflt
  | some b => if b then b else dflt

/-- The row the INSERT builds from the bound parameters, with the id
assigned by AUTO_INCREMENT and created_at from CURRENT_TIMESTAMP. -/
def mkRow (s : DbState) (gid : Nat) (sender text : String) (anon : Bool)
    (now : Nat) : MessageRow :=
  ⟨s.nextMessageId, gid, sender, text, anon, now⟩

/-- INSERT INTO messages (group_id, sender_name, message, is_anonymous)
VALUES (?, ?, ?, ?) against the setup-database.js schema: no
foreign-key check on group_id; AUTO_INCREMENT assigns the id.  Returns
the new state and result.insertId. -/
def insertMessage (s : DbState) (gid : Nat) (sender text : String)
    (anon : Bool) (now : Nat) : DbState × Nat :=
  (⟨s.groups, s.messages ++ [mkRow s gid sender text anon now],
    s.nextMessageId + 1⟩, s.nextMessageId)

/-- Ordering relation of ORDER BY created_at ASC. -/
def createdAtLe (a b : MessageRow) : Prop :=
  a.created_at ≤ b.created_at

instance : DecidableRel createdAtLe :=
  fun a b => Nat.decLe a.created_at b.created_at

instance : IsTotal MessageRow createdAtLe :=
  ⟨fun a b => Nat.le_total a.created_at b.created_at⟩

instance : IsTrans MessageRow createdAtLe :=
  ⟨fun _ _ _ h1 h2 => Nat.le_trans h1 h2⟩

/-- SELECT * FROM messages WHERE group_id = ? ORDER BY created_at ASC
(server.js line 120).  The sort key is created_at, not id. -/
def listMessagesQuery (s : DbState) (gid : Nat) : List MessageRow :=
  List.insertionSort createdAtLe
    (s.messages.filter (fun r => r.group_id = gid))

/-- An HTTP response of the Express handlers. -/
inductive HttpResponse where
  | jsonRow : MessageRow → HttpResponse
  | jsonRows : List MessageRow → HttpResponse
  | serverError : String → HttpResponse
deriving DecidableEq

/-- One io.to(room).emit(event, payload) fan-out. -/
structure FanoutEvent where
  room : String
  event : String
  payload : MessageRow
deriving DecidableEq

/-- The Socket.IO room for a group: the template string group_id. -/
def groupRoom (gid : Nat) : String :=
  "group_" ++ toString gid

/-- GET /api/groups/:id/messages (server.js lines 115-129): on query
success respond 200 with the rows, on store failure respond 500 with an
error payload. -/
def getMessages (queryOk : Bool) (s : DbState) (gid : Nat) : HttpResponse :=
  if queryOk then HttpResponse.jsonRows (listMessagesQuery s gid)
  else HttpResponse.serverError "query failed"

/-- POST /api/groups/:id/messages (server.js lines 131-159): INSERT,
then SELECT the row back by insertId, then emit new_message to the
room and respond with the row; any thrown error is caught and answered
with status 500, and no emit happens after a failed step.  The none
branch of head? corresponds to newMessage being empty so newMessage[0]
is undefined; it is unreachable after a successful INSERT. -/
def postMessage (insertOk selectOk : Bool) (s : DbState) (id : Nat)
    (message : String) (sender_name : Option String)
    (is_anonymous : Option Bool) (now : Nat) :
    DbState × List FanoutEvent × HttpResponse :=
  if insertOk then
    let ins := insertMessage s id (jsOr sender_name "Anonymous") message
      (jsOrB is_anonymous true) now
    if selectOk then
      match (ins.1.messages.filter (fun r => r.id = ins.2)).head? with
      | some row =>
          (ins.1, [⟨groupRoom id, "new_message", row⟩],
            HttpResponse.jsonRow row)
      | none => (ins.1, [], HttpResponse.serverError "no row")
    else (ins.1, [], HttpResponse.serverError "select failed")
  else (s, [], HttpResponse.serverError "insert failed")

/-- socket.on send_message (server.js lines 175-196): the same INSERT,
SELECT and emit as the POST handler, but errors are only logged (no
response channel), and nothing is returned to the sender. -/
def sendMessage (insertOk selectOk : Bool) (s : DbState) (groupId : Nat)
    (message : String) (senderName : Option String)
    (isAnonymous : Option Bool) (now : Nat) :
    DbState × List FanoutEvent :=
  if insertOk then
    let ins := insertMessage s groupId (jsOr senderName "Anonymous") message
      (jsOrB isAnonymous true) now
    if selectOk then
      match (ins.1.messages.filter (fun r => r.id = ins.2)).head? with
      | some row => (ins.1, [⟨groupRoom groupId, "new_message", row⟩])
      | none => (ins.1, [])
    else (ins.1, [])
  else (s, [])

/-- Socket.IO room state: the set of (socketId, room) pairs. -/
def joinGroup (st : Finset (String × String)) (c : String) (g : Nat) :
    Finset (String × String) :=
  insert (c, groupRoom g) st

/-- socket.leave on the group room (server.js lines 170-173). -/
def leaveGroup (st : Finset (String × String)) (c : String) (g : Nat) :
    Finset (String × String) :=
  st.erase (c, groupRoom g)

/-- On transport disconnect Socket.IO removes the socket from every
room it had joined (library behavior; the repo handler only logs). -/
def removeConnection (st : Finset (String × String)) (c : String) :
    Finset (String × String) :=
  st.filter (fun p => p.1 ≠ c)

/-- The sockets currently in a room. -/
def subscribersOf (st : Finset (String × String)) (room : String) :
    Finset String :=
  (st.filter (fun p => p.2 = room)).image Prod.fst

/-- Well-formed store: every committed id is below the AUTO_INCREMENT
counter (the PRIMARY KEY and AUTO_INCREMENT discipline of MySQL). -/
def MessagesWF (s : DbState) : Prop :=
  ∀ m ∈ s.messages, m.id < s.nextMessageId

instance (s : DbState) : Decidable (MessagesWF s) :=
  List.decidableBAll (fun m : MessageRow => m.id < s.nextMessageId) s.messages


/-- The database right after setup-database.js: the default group with
id 1 and (for the runs below) no sample messages; AUTO_INCREMENT
starts at 1. -/
def initState : DbState :=
  ⟨[(1, "Fun Friday Group")], [], 1⟩

/-- One submitted message of a serialized commit trace. -/
structure SubmitOp where
  groupId : Nat
  message : String
  senderName : Option String
  isAnonymous : Option Bool
  now : Nat

/-- Run a sequence of successful submits (the commit order). -/
def runOps : DbState → List SubmitOp → DbState
  | s, [] => s
  | s, op :: rest =>
      runOps (sendMessage true true s op.groupId op.message op.senderName
        op.isAnonymous op.now).1 rest

/-- After a successful INSERT into a well-formed store, the SELECT by
insertId finds exactly the freshly inserted row. -/
theorem filter_insertId (s : DbState) (gid : Nat) (sender text : String)
    (anon : Bool) (now : Nat) (h : MessagesWF s) :
    (insertMessage s gid sender text anon now).1.messages.filter
        (fun r => r.id = (insertMessage s gid sender text anon now).2) =
      [mkRow s gid sender text anon now] := by
  simp only [insertMessage, List.filter_append]
  have h1 : s.messages.filter (fun r => decide (r.id = s.nextMessageId)) = [] := by
    rw [List.filter_eq_nil_iff]
    intro a ha
    simp only [decide_eq_true_eq]
    exact Nat.ne_of_lt (h a ha)
  rw [h1]
  simp [mkRow]

/-- Shape of a fully successful socket submit on a well-formed store. -/
theorem sendMessage_success (s : DbState) (gid : Nat) (text : String)
    (sn : Option String) (ia : Option Bool) (now : Nat) (h : MessagesWF s) :
    sendMessage true true s gid text sn ia now =
      (⟨s.groups,
        s.messages ++ [mkRow s gid (jsOr sn "Anonymous") text (jsOrB ia true) now],
        s.nextMessageId + 1⟩,
       [⟨groupRoom gid, "new_message",
         mkRow s gid (jsOr sn "Anonymous") text (jsOrB ia true) now⟩]) := by
  have hf := filter_insertId s gid (jsOr sn "Anonymous") text (jsOrB ia true) now h
  simp only [sendMessage, if_true, hf, List.head?]
  rfl

/-- Shape of a fully successful POST submit on a well-formed store. -/
theorem postMessage_success (s : DbState) (gid : Nat) (text : String)
    (sn : Option String) (ia : Option Bool) (now : Nat) (h : MessagesWF s) :
    postMessage true true s gid text sn ia now =
      (⟨s.groups,
        s.messages ++ [mkRow s gid (jsOr sn "Anonymous") text (jsOrB ia true) now],
        s.nextMessageId + 1⟩,
       [⟨groupRoom gid, "new_message",
         mkRow s gid (jsOr sn "Anonymous") text (jsOrB ia true) now⟩],
       HttpResponse.jsonRow
         (mkRow s gid (jsOr sn "Anonymous") text (jsOrB ia true) now)) := by
  have hf := filter_insertId s gid (jsOr sn "Anonymous") text (jsOrB ia true) now h
  simp only [postMessage, if_true, hf, List.head?]
  rfl

/-- C5: the synchronous POST handler and the asynchronous send_message
handler have identical semantics: for every store outcome, starting
state and input, they commit the same state and emit the same fan-out
events; the POST handler only adds an HTTP response on top. -/
theorem dual_ingress_agree (insertOk selectOk : Bool) (s : DbState)
    (gid : Nat) (text : String) (sn : Option String) (ia : Option Bool)
    (now : Nat) :
    sendMessage insertOk selectOk s gid text sn ia now =
      ((postMessage insertOk selectOk s gid text sn ia now).1,
       (postMessage insertOk selectOk s gid text sn ia now).2.1) := by
  cases insertOk with
  | false => rfl
  | true =>
    cases selectOk with
    | false => rfl
    | true =>
      simp only [sendMessage, postMessage, if_true]
      rcases hh : ((insertMessage s gid (jsOr sn "Anonymous") text
          (jsOrB ia true) now).1.messages.filter
          (fun r => r.id = (insertMessage s gid (jsOr sn "Anonymous") text
            (jsOrB ia true) now).2)).head? with _ | row
      · rw [hh]
      · rw [hh]

/-- C8: join and leave on the group directory are idempotent: joining
the same room twice yields the same room state and the same subscriber
set as joining once, and likewise for leave. -/
theorem join_leave_idempotent (st : Finset (String × String))
    (c : String) (g : Nat) :
    joinGroup (joinGroup st c g) c g = joinGroup st c g ∧
    subscribersOf (joinGroup (joinGroup st c g) c g) (groupRoom g) =
      subscribersOf (joinGroup st c g) (groupRoom g) ∧
    leaveGroup (leaveGroup st c g) c g = leaveGroup st c g ∧
    subscribersOf (leaveGroup (leaveGroup st c g) c g) (groupRoom g) =
      subscribersOf (leaveGroup st c g) (groupRoom g) := by
  have hj : joinGroup (joinGroup st c g) c g = joinGroup st c g := by
    simp only [joinGroup]
    exact Finset.insert_idem _ _
  have hl : leaveGroup (leaveGroup st c g) c g = leaveGroup st c g := by
    simp only [leaveGroup]
    exact Finset.erase_idem
  exact ⟨hj, by rw [hj], hl, by rw [hl]⟩

/-- C9: after the disconnect cleanup removes a connection, that
connection is a subscriber of no group room, however many groups it
had joined. -/
theorem disconnect_cleans_all_memberships (st : Finset (String × String))
    (c : String) (g : Nat) :
    c ∉ subscribersOf (removeConnection st c) (groupRoom g) := by
  intro hmem
  rcases Finset.mem_image.mp hmem with ⟨p, hp, hfst⟩
  rcases Finset.mem_filter.mp hp with ⟨hp2, _⟩
  rcases Finset.mem_filter.mp hp2 with ⟨_, hne⟩
  exact hne hfst

/-- C10: retrieving history never fails for an unknown group: with the
store reachable the handler answers 200 with the query result, and when
no stored message names the group (in particular when the group does
not exist) that result is the empty list; the 500 error branch is taken
exactly when the store query itself fails. -/
theorem history_of_unknown_group_is_empty (s : DbState) (gid : Nat) :
    getMessages true s gid = HttpResponse.jsonRows (listMessagesQuery s gid) ∧
    ((∀ m ∈ s.messages, m.group_id ≠ gid) →
      getMessages true s gid = HttpResponse.jsonRows []) ∧
    getMessages false s gid = HttpResponse.serverError "query failed" := by
  refine ⟨rfl, ?_, rfl⟩
  intro h
  have hf : s.messages.filter (fun r => r.group_id = gid) = [] := by
    rw [List.filter_eq_nil_iff]
    intro a ha
    simpa using h a ha
  simp [getMessages, listMessagesQuery, hf]

/-- A state with one message in group 1, used to instantiate theorems
with hypotheses at concrete inputs. -/
def demoState : DbState :=
  ⟨[(1, "Fun Friday Group")],
   [⟨1, 1, "Anonymous", "Hello!", true, 3⟩], 2⟩

/-- Witness for C10 at a concrete input: group 2 has no messages in
demoState, and the handler answers 200 with the empty list. -/
theorem history_of_unknown_group_is_empty_witness :
    getMessages true demoState 2 = HttpResponse.jsonRows [] :=
  (history_of_unknown_group_is_empty demoState 2).2.1 (by decide)

/-- C6 (amended): the history the GET handler returns is the stored
messages of the group ordered by created_at ascending - a permutation
of the group rows sorted by the wall-clock column, not by id. -/
theorem list_messages_ordered_by_created_at (s : DbState) (gid : Nat) :
    getMessages true s gid = HttpResponse.jsonRows (listMessagesQuery s gid) ∧
    List.Sorted createdAtLe (listMessagesQuery s gid) ∧
    List.Perm (listMessagesQuery s gid)
      (s.messages.filter (fun r => r.group_id = gid)) :=
  ⟨rfl, List.sorted_insertionSort createdAtLe _,
    List.perm_insertionSort createdAtLe _⟩

/-- Store state reached by two successful submits to group 1 whose
CURRENT_TIMESTAMP inputs go backwards (a wall-clock step): the store
assigns ids 1 then 2 with created_at 10 then 5. -/
def regressState : DbState :=
  (sendMessage true true
    (sendMessage true true initState 1 "first" (some "Alice") (some false) 10).1
    1 "second" (some "Bob") (some false) 5).1

/-- Counterexample to C6: the GET handler sorts by created_at, not by
id: a reachable store whose commit order carries ids 1 then 2 is
returned as the id sequence 2 then 1, which is not id ascending. -/
theorem history_not_ordered_by_id :
    regressState.messages.map (fun r => r.id) = [1, 2] ∧
    (listMessagesQuery regressState 1).map (fun r => r.id) = [2, 1] := by
  decide

/-- Counterexample to C2: a submit with empty text is not rejected with
InvalidMessage on either path: the empty-text row is inserted into the
store and a new_message fan-out is emitted. -/
theorem empty_text_not_rejected :
    ((postMessage true true initState 1 "" (some "Alice") (some false) 0).1).messages =
      [⟨1, 1, "Alice", "", true, 0⟩] ∧
    (postMessage true true initState 1 "" (some "Alice") (some false) 0).2.1 ≠ [] ∧
    ((sendMessage true true initState 1 "" none none 0).1).messages =
      [⟨1, 1, "Anonymous", "", true, 0⟩] ∧
    (sendMessage true true initState 1 "" none none 0).2 ≠ [] := by
  decide

/-- C2 (amended): neither ingress path validates the text: a submit
with empty text proceeds to the INSERT like any other, commits a row
whose message column is the empty string, and emits its fan-out. -/
theorem empty_text_inserted_and_broadcast (s : DbState) (gid : Nat)
    (sn : Option String) (ia : Option Bool) (now : Nat) (h : MessagesWF s) :
    (postMessage true true s gid "" sn ia now).1.messages =
      s.messages ++ [mkRow s gid (jsOr sn "Anonymous") "" (jsOrB ia true) now] ∧
    (postMessage true true s gid "" sn ia now).2.1 =
      [⟨groupRoom gid, "new_message",
        mkRow s gid (jsOr sn "Anonymous") "" (jsOrB ia true) now⟩] ∧
    (sendMessage true true s gid "" sn ia now).2 =
      [⟨groupRoom gid, "new_message",
        mkRow s gid (jsOr sn "Anonymous") "" (jsOrB ia true) now⟩] := by
  rw [postMessage_success s gid "" sn ia now h,
    sendMessage_success s gid "" sn ia now h]
  exact ⟨rfl, rfl, rfl⟩

/-- Witness for the amended C2 at a concrete input. -/
theorem empty_text_inserted_and_broadcast_witness :
    (sendMessage true true initState 1 "" none none 0).2 =
      [⟨groupRoom 1, "new_message",
        mkRow initState 1 (jsOr none "Anonymous") "" (jsOrB none true) 0⟩] :=
  (empty_text_inserted_and_broadcast initState 1 none none 0 (by decide)).2.2

/-- C3 (code behavior at the failing input): with only group 1 in the
groups table, a POST naming group 999 does not fail with UnknownGroup:
the messages table created by setup-database.js has no foreign-key
constraint, so the row is inserted with group_id 999, fan-out to room
group_999 is emitted, and the handler answers 200 with the row. -/
theorem unknown_group_insert_succeeds :
    (∀ g ∈ initState.groups, g.1 ≠ 999) ∧
    (postMessage true true initState 999 "hi" (some "Alice") (some false) 0).1.messages =
      [⟨1, 999, "Alice", "hi", true, 0⟩] ∧
    (postMessage true true initState 999 "hi" (some "Alice") (some false) 0).2.1 =
      [⟨"group_999", "new_message", ⟨1, 999, "Alice", "hi", true, 0⟩⟩] ∧
    (postMessage true true initState 999 "hi" (some "Alice") (some false) 0).2.2 =
      HttpResponse.jsonRow ⟨1, 999, "Alice", "hi", true, 0⟩ := by
  decide

/-- C4 (code behavior at the failing input): a submit with
is_anonymous = false commits a row whose is_anonymous flag is true:
both handlers bind the column with the JavaScript expression
is_anonymous OR true, which evaluates to true for every input, so the
submitted false never reaches the store; text and sender name are
stored as submitted. -/
theorem is_anonymous_false_is_coerced_to_true :
    jsOrB (some false) true = true ∧
    ((postMessage true true initState 1 "hi" (some "Alice") (some false) 0).1.messages =
      [⟨1, 1, "Alice", "hi", true, 0⟩]) ∧
    ((sendMessage true true initState 1 "hi" (some "Alice") (some false) 0).1.messages =
      [⟨1, 1, "Alice", "hi", true, 0⟩]) := by
  decide

/-- C1: durability strictly precedes visibility on both ingress paths:
a failed INSERT leaves the store unchanged and emits no fan-out on
either path, and every fan-out either path does emit carries a payload
that a subsequent listMessages query for that group returns. -/
theorem durability_before_visibility (insertOk selectOk : Bool)
    (s : DbState) (gid : Nat) (text : String) (sn : Option String)
    (ia : Option Bool) (now : Nat) (h : MessagesWF s) :
    (insertOk = false →
      postMessage insertOk selectOk s gid text sn ia now =
        (s, [], HttpResponse.serverError "insert failed") ∧
      sendMessage insertOk selectOk s gid text sn ia now = (s, [])) ∧
    (∀ e ∈ (postMessage insertOk selectOk s gid text sn ia now).2.1,
      e.payload ∈
        listMessagesQuery (postMessage insertOk selectOk s gid text sn ia now).1 gid) ∧
    (∀ e ∈ (sendMessage insertOk selectOk s gid text sn ia now).2,
      e.payload ∈
        listMessagesQuery (sendMessage insertOk selectOk s gid text sn ia now).1 gid) := by
  have hm : mkRow s gid (jsOr sn "Anonymous") text (jsOrB ia true) now ∈
      listMessagesQuery
        ⟨s.groups,
         s.messages ++ [mkRow s gid (jsOr sn "Anonymous") text (jsOrB ia true) now],
         s.nextMessageId + 1⟩ gid := by
    simp [listMessagesQuery, List.mem_filter, mkRow]
  refine ⟨?_, ?_, ?_⟩
  · intro he
    subst he
    exact ⟨rfl, rfl⟩
  · cases insertOk with
    | false => intro e he; simp [postMessage] at he
    | true =>
      cases selectOk with
      | false => intro e he; simp [postMessage] at he
      | true =>
        rw [postMessage_success s gid text sn ia now h]
        intro e he
        simp only [List.mem_singleton] at he
        subst he
        exact hm
  · cases insertOk with
    | false => intro e he; simp [sendMessage] at he
    | true =>
      cases selectOk with
      | false => intro e he; simp [sendMessage] at he
      | true =>
        rw [sendMessage_success s gid text sn ia now h]
        intro e he
        simp only [List.mem_singleton] at he
        subst he
        exact hm

/-- The fan-out the successful demo POST emits. -/
def w1Event : FanoutEvent :=
  ⟨"group_1", "new_message", ⟨1, 1, "Alice", "hi", true, 0⟩⟩

/-- Witness for C1 at a concrete input: the one emitted event is
observed and its payload is in the subsequent history query. -/
theorem durability_before_visibility_witness :
    w1Event ∈ (postMessage true true initState 1 "hi" (some "Alice") (some false) 0).2.1 ∧
    w1Event.payload ∈
      listMessagesQuery (postMessage true true initState 1 "hi" (some "Alice") (some false) 0).1 1 :=
  ⟨by decide,
   (durability_before_visibility true true initState 1 "hi" (some "Alice")
     (some false) 0 (by decide)).2.1 w1Event (by decide)⟩

/-- Component form of a successful submit: the new row is appended and
the AUTO_INCREMENT counter advances by one. -/
theorem sendMessage_success_parts (s : DbState) (gid : Nat) (text : String)
    (sn : Option String) (ia : Option Bool) (now : Nat) (h : MessagesWF s) :
    (sendMessage true true s gid text sn ia now).1.messages =
      s.messages ++ [mkRow s gid (jsOr sn "Anonymous") text (jsOrB ia true) now] ∧
    (sendMessage true true s gid text sn ia now).1.nextMessageId =
      s.nextMessageId + 1 := by
  rw [sendMessage_success s gid text sn ia now h]
  exact ⟨rfl, rfl⟩

/-- A successful submit keeps the store well formed. -/
theorem sendMessage_preserves_wf (s : DbState) (gid : Nat) (text : String)
    (sn : Option String) (ia : Option Bool) (now : Nat) (h : MessagesWF s) :
    MessagesWF (sendMessage true true s gid text sn ia now).1 := by
  have hs := sendMessage_success_parts s gid text sn ia now h
  intro m hm
  rw [hs.1] at hm
  rw [hs.2]
  rcases List.mem_append.mp hm with h1 | h2
  · exact Nat.lt_succ_of_lt (h m h1)
  · rw [List.mem_singleton.mp h2]
    exact Nat.lt_succ_self _

/-- A run of submits keeps the store well formed. -/
theorem runOps_wf (ops : List SubmitOp) :
    ∀ s : DbState, MessagesWF s → MessagesWF (runOps s ops) := by
  induction ops with
  | nil => intro s h; exact h
  | cons op rest ih =>
    intro s h
    exact ih _ (sendMessage_preserves_wf s op.groupId op.message
      op.senderName op.isAnonymous op.now h)

/-- A run of submits keeps the committed ids strictly increasing along
the commit order of the messages table. -/
theorem runOps_pairwise (ops : List SubmitOp) :
    ∀ s : DbState, MessagesWF s →
      List.Pairwise (fun a b => a.id < b.id) s.messages →
      List.Pairwise (fun a b => a.id < b.id) (runOps s ops).messages := by
  induction ops with
  | nil => intro s _ hp; exact hp
  | cons op rest ih =>
    intro s h hp
    apply ih _ (sendMessage_preserves_wf s op.groupId op.message
      op.senderName op.isAnonymous op.now h)
    have hs := sendMessage_success_parts s op.groupId op.message
      op.senderName op.isAnonymous op.now h
    rw [hs.1, List.pairwise_append]
    refine ⟨hp, List.pairwise_singleton _ _, ?_⟩
    intro a ha b hb
    rw [List.mem_singleton.mp hb]
    exact h a ha

/-- C7: along any serialized sequence of commits from a well-formed
store, the ids the store assigns are distinct and strictly increasing
in commit order: for two stored rows of the same group, the row
committed earlier has the smaller id and conversely. -/
theorem ids_strictly_increasing_in_commit_order (s0 : DbState)
    (h0 : MessagesWF s0)
    (hp : List.Pairwise (fun a b => a.id < b.id) s0.messages)
    (ops : List SubmitOp)
    (i j : Fin (runOps s0 ops).messages.length)
    (_hg : ((runOps s0 ops).messages.get i).group_id =
      ((runOps s0 ops).messages.get j).group_id) :
    ((runOps s0 ops).messages.get i).id < ((runOps s0 ops).messages.get j).id ↔
      (i : Nat) < (j : Nat) := by
  have hmono := List.pairwise_iff_get.mp (runOps_pairwise ops s0 h0 hp)
  constructor
  · intro hlt
    rcases Nat.lt_trichotomy (i : Nat) (j : Nat) with h1 | h1 | h1
    · exact h1
    · exfalso
      rw [Fin.ext h1] at hlt
      exact Nat.lt_irrefl _ hlt
    · exact absurd (Nat.lt_trans hlt (hmono j i h1)) (Nat.lt_irrefl _)
  · intro hij
    exact hmono i j hij

/-- Two successful submits to group 1, in commit order. -/
def c7Ops : List SubmitOp :=
  [⟨1, "hi", some "Alice", some false, 0⟩, ⟨1, "bye", none, none, 1⟩]

/-- Witness for C7 at a concrete run: the first committed row of the
trace has a smaller id than the second. -/
theorem ids_strictly_increasing_witness :
    ((runOps initState c7Ops).messages.get ⟨0, by decide⟩).id <
      ((runOps initState c7Ops).messages.get ⟨1, by decide⟩).id :=
  (ids_strictly_increasing_in_commit_order initState (by decide)
    (List.Pairwise.nil) c7Ops ⟨0, by decide⟩ ⟨1, by decide⟩ (by decide)).mpr
    (by decide)
